import Mathlib

/-
  Verification of the clinical-records signature and audit-trail core.

  The definitions below are a shallow embedding of the JavaScript source:
    - models/AuditLog.js   (schema, statics registrar / buscar, pre-save hook)
    - models/Firma.js      (schema, methods verificarFirma / revocar)
    - models/Expediente.js (pre-save hash hook, verificarIntegridad)
    - controllers/expedienteController.js (firmarExpediente, registrarAuditoria)
    - controllers/auditController.js (getAuditLogs, registrarConsultaAuditoria)
    - middlewares/errorHandler.js (AppError, error transformation, logError)

  Dates are modelled as milliseconds since the epoch (Int).  Mongo object ids
  are modelled as Nat.  Fields that the Mongoose schema does not mark as
  required are Option-valued; persistence failures are explicit (a saveOk
  flag stands for store reachability).  The SHA-256 digest and the Node
  crypto verification routine are external primitives and are passed as
  function parameters wherever the source calls them.
-/

namespace ClinicalCore

/-- Mongo object id, modelled as a natural number. -/
abbrev ObjectId := Nat

/-! ## AuditLog data model (models/AuditLog.js, schema lines 194-298) -/

/-- Subdocument `entidad` of the audit schema: affected entity type and id.
Both subfields are `required: true` in the schema, but callers may omit
them, so the raw document carries options. -/
structure Entidad where
  tipo : Option String
  id : Option ObjectId
deriving Repr, DecidableEq

/-- Subdocument `seguridad`: network origin, client agent, session.  Only
`ip` is required by the schema. -/
structure Seguridad where
  ip : Option String
  userAgent : Option String
  sessionId : Option String
deriving Repr, DecidableEq

/-- Subdocument `resultado`: outcome of the audited action.  `exitoso` is
required by the schema. -/
structure Resultado where
  exitoso : Option Bool
  mensaje : Option String
  codigoError : Option String
deriving Repr, DecidableEq

/-- One audit document as persisted by the `AuditLog` model.  `detalles` is
a free-form payload, modelled here as its serialized text. -/
structure AuditLogDoc where
  usuario : Option ObjectId
  rolUsuario : Option String
  accion : Option String
  entidad : Entidad
  detalles : Option String
  seguridad : Seguridad
  resultado : Resultado
  timestamp : Int
deriving Repr, DecidableEq

/-- Enum of `rolUsuario` in the audit schema. -/
def rolesPermitidos : List String := ["admin", "doctor", "paciente"]

/-- Enum of `accion` in the audit schema (lines 210-234 of the model). -/
def accionesPermitidas : List String :=
  ["login", "logout", "reset_password", "change_password",
   "crear", "leer", "actualizar", "eliminar",
   "firmar_documento", "generar_pdf", "subir_archivo", "descargar_archivo",
   "otorgar_acceso", "revocar_acceso"]

/-- Enum of `entidad.tipo` in the audit schema. -/
def tiposEntidad : List String := ["Usuario", "Paciente", "Expediente", "Documento"]

/-- Mongoose validation of an audit document: the list of schema paths whose
`required` (or enum) constraint fails.  Empty list means the document is
valid. -/
def auditValidationErrors (d : AuditLogDoc) : List String :=
  (if d.usuario.isSome then [] else ["usuario"]) ++
  (match d.rolUsuario with
   | some r => if rolesPermitidos.contains r then [] else ["rolUsuario"]
   | none => ["rolUsuario"]) ++
  (match d.accion with
   | some a => if accionesPermitidas.contains a then [] else ["accion"]
   | none => ["accion"]) ++
  (match d.entidad.tipo with
   | some t => if tiposEntidad.contains t then [] else ["entidad.tipo"]
   | none => ["entidad.tipo"]) ++
  (if d.entidad.id.isSome then [] else ["entidad.id"]) ++
  (if d.seguridad.ip.isSome then [] else ["seguridad.ip"]) ++
  (if d.resultado.exitoso.isSome then [] else ["resultado.exitoso"])

/-- An audit document passes schema validation. -/
def validAuditLogDoc (d : AuditLogDoc) : Bool :=
  (auditValidationErrors d).isEmpty

/-- Errors a Mongoose save can surface in this embedding. -/
inductive DbError where
  | validationError (messages : List String)
  | hookError (message : String)
  | unavailable
deriving Repr, DecidableEq

/-- Message of the error raised by the audit pre-save hook (line 363). -/
def auditImmutableMsg : String := "Los registros de auditoría no pueden ser modificados"

/-- The pre-save hook of the audit schema (lines 361-367): every save of a
document that is not new is rejected. -/
def auditPreSave (isNew : Bool) : Except String Unit :=
  if !isNew then Except.error auditImmutableMsg else Except.ok ()

/-! ## Capped audit store (schema options, lines 291-298)

The schema declares `capped: \x7b size: 5242880, max: 10000 \x7d`.  The
eviction behaviour itself is implemented by MongoDB, outside this
repository. -/

/-- Configured document-count ceiling of the audit collection
(`capped.max` in the schema). -/
def cappedMax : Nat := 10000

/-- Configured byte-size ceiling of the audit collection (`capped.size` in
the schema); the count model below tracks only the document count. -/
def cappedSizeBytes : Nat := 5242880

/-- Modelled from the spec: MongoDB capped-collection insertion — the
storage engine is outside the repository; per the spec, when the configured
ceiling is reached the oldest records are dropped first (ring-buffer
semantics).  The store list is kept in insertion order, oldest first. -/
def cappedInsert (store : List AuditLogDoc) (d : AuditLogDoc) : List AuditLogDoc :=
  let s := store ++ [d]
  if cappedMax < s.length then s.drop (s.length - cappedMax) else s

/-- Mongoose save pipeline for an audit document: validation runs first
(it is itself a pre-save hook registered ahead of user hooks), then the
user pre-save hook of lines 361-367, then the write.  The second component
of the result is the store after the attempt; on any error the store is
returned unchanged. -/
def saveAuditLog (saveOk : Bool) (isNew : Bool) (doc : AuditLogDoc)
    (store : List AuditLogDoc) : Except DbError AuditLogDoc × List AuditLogDoc :=
  if !(validAuditLogDoc doc) then
    (Except.error (DbError.validationError (auditValidationErrors doc)), store)
  else
    match auditPreSave isNew with
    | Except.error m => (Except.error (DbError.hookError m), store)
    | Except.ok () =>
      if saveOk then (Except.ok doc, cappedInsert store doc)
      else (Except.error DbError.unavailable, store)

/-! ## AuditLog.registrar (statics, lines 307-335) -/

/-- Argument object of `AuditLog.registrar`.  The static reads `usuario`,
`rolUsuario`, `accion`, `entidad`, `detalles` and the TOP-LEVEL fields
`ip`, `userAgent`, `sessionId`, `exitoso`, `mensaje`, `codigoError`.  The
nested `seguridad` and `resultado` objects, which the in-repository callers
populate instead, are carried here as well but are never read by
`registrar`. -/
structure DatosAuditoria where
  usuario : Option ObjectId
  rolUsuario : Option String
  accion : Option String
  entidad : Entidad
  detalles : Option String
  ip : Option String
  userAgent : Option String
  sessionId : Option String
  exitoso : Option Bool
  mensaje : Option String
  codigoError : Option String
  seguridad : Option Seguridad
  resultado : Option Resultado
deriving Repr, DecidableEq

/-- Human-readable rendering of a save failure, used for the diagnostic
console channel. -/
def dbErrorMessage : DbError → String
  | DbError.validationError msgs => "ValidationError: " ++ String.intercalate ", " msgs
  | DbError.hookError m => m
  | DbError.unavailable => "store unavailable"

/-- `AuditLog.registrar` (lines 307-335): builds the document from the
top-level fields of its argument, attempts the save, and catches every
failure — on error it writes a diagnostic line (third component) and
returns `none` instead of throwing.  Result: created document (or `none`),
store after the call, diagnostic lines.  `registrarDoc` is the document
the static builds (lines 309-325): note it reads the TOP-LEVEL `ip`,
`userAgent`, `sessionId`, `exitoso`, `mensaje`, `codigoError` fields of
its argument, not the nested `seguridad` / `resultado` objects. -/
def registrarDoc (now : Int) (datos : DatosAuditoria) : AuditLogDoc :=
  { usuario := datos.usuario
    rolUsuario := datos.rolUsuario
    accion := datos.accion
    entidad := datos.entidad
    detalles := some (datos.detalles.getD "\x7b\x7d")
    seguridad := { ip := datos.ip, userAgent := datos.userAgent,
                   sessionId := datos.sessionId }
    resultado := { exitoso := datos.exitoso, mensaje := datos.mensaje,
                   codigoError := datos.codigoError }
    timestamp := now }

def registrar (saveOk : Bool) (now : Int) (datos : DatosAuditoria)
    (store : List AuditLogDoc) :
    Option AuditLogDoc × List AuditLogDoc × List String :=
  match saveAuditLog saveOk true (registrarDoc now datos) store with
  | (Except.ok saved, store') => (some saved, store', [])
  | (Except.error e, store') =>
      (none, store', ["Error al registrar auditoría: " ++ dbErrorMessage e])

/-! ## AuditLog.buscar (statics, lines 338-358)

The static builds a Mongo query object clause by clause from the given
filters, then runs find / sort by timestamp descending / limit / skip.
Mongo applies skip before limit regardless of chaining order. -/

/-- Filter argument of `AuditLog.buscar`. -/
structure Filtros where
  usuario : Option ObjectId
  accion : Option String
  entidadTipo : Option String
  entidadId : Option ObjectId
  exitoso : Option Bool
  fechaInicio : Option Int
  fechaFin : Option Int
  limite : Option Nat
  skip : Option Nat
deriving Repr, DecidableEq

/-- The Mongo query object assembled by `buscar`: one optional clause per
filter, timestamp range as gte / lte bounds. -/
structure MongoAuditQuery where
  usuario : Option ObjectId
  rolUsuario : Option String
  accion : Option String
  entidadTipo : Option String
  entidadId : Option ObjectId
  exitoso : Option Bool
  tsGte : Option Int
  tsLte : Option Int
deriving Repr, DecidableEq

/-- Query construction of `buscar` (lines 339-351), field by field.  Each
source line guards with a JS truthiness test: object ids are always truthy
when present, empty strings are falsy, and the `exitoso` clause is guarded
by an explicit undefined test. -/
def buildQuery (f : Filtros) : MongoAuditQuery :=
  { usuario := f.usuario
    rolUsuario := none
    accion := match f.accion with
      | some a => if a == "" then none else some a
      | none => none
    entidadTipo := match f.entidadTipo with
      | some t => if t == "" then none else some t
      | none => none
    entidadId := f.entidadId
    exitoso := f.exitoso
    tsGte := f.fechaInicio
    tsLte := f.fechaFin }

/-- Evaluation of a Mongo query object on one audit document: every present
clause must hold; the timestamp bounds are inclusive. -/
def matchesQuery (q : MongoAuditQuery) (d : AuditLogDoc) : Bool :=
  (match q.usuario with | some u => d.usuario == some u | none => true) &&
  (match q.rolUsuario with | some r => d.rolUsuario == some r | none => true) &&
  (match q.accion with | some a => d.accion == some a | none => true) &&
  (match q.entidadTipo with | some t => d.entidad.tipo == some t | none => true) &&
  (match q.entidadId with | some i => d.entidad.id == some i | none => true) &&
  (match q.exitoso with | some b => d.resultado.exitoso == some b | none => true) &&
  (match q.tsGte with | some t0 => decide (t0 ≤ d.timestamp) | none => true) &&
  (match q.tsLte with | some t1 => decide (d.timestamp ≤ t1) | none => true)

/-- Insertion into a list sorted newest-first by timestamp. -/
def insertDesc (d : AuditLogDoc) : List AuditLogDoc → List AuditLogDoc
  | [] => [d]
  | x :: xs => if d.timestamp ≤ x.timestamp then x :: insertDesc d xs
               else d :: x :: xs

/-- Sort newest-first by timestamp (the sort of line 354). -/
def sortByTimestampDesc : List AuditLogDoc → List AuditLogDoc
  | [] => []
  | x :: xs => insertDesc x (sortByTimestampDesc xs)

/-- Effective limit of `buscar`: `filtros.limite || 100` — absent or zero
falls back to 100. -/
def buscarLimite (f : Filtros) : Nat :=
  match f.limite with
  | some l => if l == 0 then 100 else l
  | none => 100

/-- Effective skip of `buscar`: `filtros.skip || 0`. -/
def buscarSkip (f : Filtros) : Nat :=
  match f.skip with
  | some s => s
  | none => 0

/-- `AuditLog.buscar` (lines 338-358): filter the store with the assembled
query, order newest-first, then paginate with skip and limit. -/
def buscar (f : Filtros) (store : List AuditLogDoc) : List AuditLogDoc :=
  let found := store.filter (fun d => matchesQuery (buildQuery f) d)
  ((sortByTimestampDesc found).drop (buscarSkip f)).take (buscarLimite f)

/-! ## Firma data model (models/Firma.js, schema lines 375-515)

A persisted signature document has passed schema validation, so its
required paths are present and carried without Option.  The enum
constraints (algoritmo, proposito, estado) remain checked at save time. -/

/-- Issuer identity fields of the certificate (all optional). -/
structure EmisorInfo where
  nombreComun : Option String
  organizacion : Option String
  unidad : Option String
  pais : Option String
deriving Repr, DecidableEq

/-- Certificate block of a persisted signature: serial number, issuer,
validity window, PEM public certificate.  Serial, window bounds and the
public certificate are required by the schema. -/
structure CertificadoFirma where
  numeroSerie : String
  emisor : EmisorInfo
  vigenciaInicio : Int
  vigenciaFin : Int
  certificadoPublico : String
deriving Repr, DecidableEq

/-- Signature block: algorithm tag, exact signed string, base64 signature
bytes, document hash — all required by the schema. -/
structure FirmaBlock where
  algoritmo : String
  cadenaOriginal : String
  selloDigital : String
  hashDocumento : String
deriving Repr, DecidableEq

/-- Revocation overlay sub-record. -/
structure Revocacion where
  fecha : Option Int
  motivo : Option String
  revocadaPor : Option ObjectId
deriving Repr, DecidableEq

/-- One persisted signature document. -/
structure FirmaDoc where
  id : ObjectId
  expediente : ObjectId
  firmante : ObjectId
  certificado : CertificadoFirma
  firma : FirmaBlock
  timestampFecha : Int
  proposito : String
  estado : String
  revocacion : Option Revocacion
deriving Repr, DecidableEq

/-- Enum of `firma.algoritmo` in the signature schema. -/
def algoritmosPermitidos : List String := ["RSA-SHA256", "ECDSA-P256-SHA256"]

/-- Enum of `metadata.proposito` in the signature schema. -/
def propositosPermitidos : List String :=
  ["creacion_expediente", "actualizacion_expediente", "nota_medica",
   "receta", "consentimiento_informado", "resultado_laboratorio"]

/-- Enum of `estado` in the signature schema. -/
def estadosFirma : List String := ["valida", "revocada", "expirada"]

/-- Enum validation of a signature document at save time (the required
paths are already present by construction of `FirmaDoc`). -/
def validFirmaDoc (f : FirmaDoc) : Bool :=
  algoritmosPermitidos.contains f.firma.algoritmo &&
  propositosPermitidos.contains f.proposito &&
  estadosFirma.contains f.estado

/-- Save of a signature document: enum validation, then the write. -/
def saveFirma (saveOk : Bool) (f : FirmaDoc) : Except DbError FirmaDoc :=
  if !(validFirmaDoc f) then Except.error (DbError.validationError ["firma"])
  else if saveOk then Except.ok f
  else Except.error DbError.unavailable

/-- Result object of `verificarFirma`: validity flag, message, and the
revocation detail when the failure reason is a revoked signature. -/
structure ResultadoVerificacion where
  valida : Bool
  mensaje : String
  detalles : Option Revocacion
deriving Repr, DecidableEq

/-- `firmaSchema.methods.verificarFirma` (lines 524-564).  In order, short
circuiting: certificate window (fails when now is before the start or
after the end of the validity window), then revocation state, then the
cryptographic check.  The Node crypto verification is the external
parameter `cryptoVerify`, applied to the algorithm tag, the exact signed
string, the PEM public certificate and the base64 signature bytes. -/
def verificarFirma (cryptoVerify : String → String → String → String → Bool)
    (ahora : Int) (f : FirmaDoc) : ResultadoVerificacion :=
  if ahora < f.certificado.vigenciaInicio ∨ f.certificado.vigenciaFin < ahora then
    { valida := false, mensaje := "El certificado ha expirado", detalles := none }
  else if f.estado == "revocada" then
    { valida := false, mensaje := "La firma ha sido revocada", detalles := f.revocacion }
  else
    let firmaValida := cryptoVerify f.firma.algoritmo f.firma.cadenaOriginal
      f.certificado.certificadoPublico f.firma.selloDigital
    { valida := firmaValida,
      mensaje := if firmaValida then "Firma válida" else "Firma inválida",
      detalles := none }

/-- An authenticated user, as the middleware places it on the request. -/
structure UserDoc where
  id : ObjectId
  role : String
deriving Repr, DecidableEq

/-- The argument object the `revocar` method passes to
`AuditLog.registrar`: accion revocar_firma, the signature as entity, the
outcome nested under `resultado`, and no `seguridad` and no top-level
`ip` / `exitoso` fields at all. -/
def datosRevocacionAudit (usuario : UserDoc) (f : FirmaDoc) (motivo : String) :
    DatosAuditoria :=
  { usuario := some usuario.id
    rolUsuario := some usuario.role
    accion := some "revocar_firma"
    entidad := { tipo := some "Firma", id := some f.id }
    detalles := some ("expediente=" ++ toString f.expediente ++ ", motivo=" ++ motivo)
    ip := none
    userAgent := none
    sessionId := none
    exitoso := none
    mensaje := none
    codigoError := none
    seguridad := none
    resultado := some { exitoso := some true,
                        mensaje := some "Firma revocada exitosamente",
                        codigoError := none } }

/-- `firmaSchema.methods.revocar` (lines 567-594): unconditionally set the
state to revocada and overwrite the revocation sub-record with the new
date, reason and revoker, save, then attempt the audit append.  The method
performs no check of the current state.  Result: the saved signature and
the audit store after the append attempt. -/
def revocar (saveOk : Bool) (ahora : Int) (usuario : UserDoc) (motivo : String)
    (f : FirmaDoc) (auditStore : List AuditLogDoc) :
    Except DbError (FirmaDoc × List AuditLogDoc) :=
  let f' : FirmaDoc :=
    { f with estado := "revocada"
             revocacion := some { fecha := some ahora, motivo := some motivo,
                                  revocadaPor := some usuario.id } }
  match saveFirma saveOk f' with
  | Except.error e => Except.error e
  | Except.ok saved =>
    let r := registrar saveOk ahora (datosRevocacionAudit usuario f motivo) auditStore
    Except.ok (saved, r.2.1)

/-! ## Expediente data model (models/Expediente.js)

The hash binder: a pre-save hook recomputes the SHA-256 digest of the
JSON serialization of `contenido` whenever `contenido` was modified, and
`verificarIntegridad` recomputes and compares.  The SHA-256 primitive is
the external parameter `sha256hex`. -/

/-- Metadata subdocument of `contenido`. -/
structure ContenidoMetadata where
  version : Nat
  ultimaModificacion : Option Int
  modificadoPor : Option ObjectId
deriving Repr, DecidableEq

/-- The mutable clinical payload of a record (`contenido` in the schema). -/
structure Contenido where
  fecha : Int
  motivo : Option String
  padecimientoActual : Option String
  diagnostico : Option String
  tratamiento : Option String
  pronostico : Option String
  datosEspecificos : String
  metadata : ContenidoMetadata
deriving Repr, DecidableEq

/-- Renders one optional string field of the JSON serialization;
JSON.stringify omits undefined fields. -/
def jsonOptField (v : Option String) (name : String) : String :=
  match v with
  | some s => ",\"" ++ name ++ "\":\"" ++ s ++ "\""
  | none => ""

/-- Renders one optional numeric field of the JSON serialization. -/
def jsonOptNumField (v : Option Int) (name : String) : String :=
  match v with
  | some n => ",\"" ++ name ++ "\":" ++ toString n
  | none => ""

/-- The canonical serialization `JSON.stringify(this.contenido)` used by
both the pre-save hook and `verificarIntegridad`: fields in schema
insertion order, undefined fields omitted. -/
def stringifyContenido (c : Contenido) : String :=
  "\x7b\"fecha\":" ++ toString c.fecha ++
  jsonOptField c.motivo "motivo" ++
  jsonOptField c.padecimientoActual "padecimientoActual" ++
  jsonOptField c.diagnostico "diagnostico" ++
  jsonOptField c.tratamiento "tratamiento" ++
  jsonOptField c.pronostico "pronostico" ++
  ",\"datosEspecificos\":" ++ c.datosEspecificos ++
  ",\"metadata\":\x7b\"version\":" ++ toString c.metadata.version ++
  jsonOptNumField c.metadata.ultimaModificacion "ultimaModificacion" ++
  jsonOptNumField (c.metadata.modificadoPor.map Int.ofNat) "modificadoPor" ++
  "\x7d\x7d"

/-- The `documento` subdocument: PDF location, content hash, generation
date. -/
structure Documento where
  url : Option String
  hash : Option String
  createdAt : Option Int
deriving Repr, DecidableEq

/-- Denormalized signature snapshot embedded in the record
(`firmaDigital`). -/
structure FirmaDigitalSnapshot where
  firmante : ObjectId
  fechaFirma : Int
  certNumeroSerie : Option String
  certEmisor : Option String
  certVigenciaInicio : Option Int
  certVigenciaFin : Option Int
  selloDigital : Option String
  cadenaOriginal : Option String
deriving Repr, DecidableEq

/-- One clinical record document. -/
structure ExpedienteDoc where
  id : ObjectId
  paciente : ObjectId
  tipo : String
  contenido : Contenido
  documento : Documento
  firmaDigital : Option FirmaDigitalSnapshot
  estado : String
  createdBy : ObjectId
  active : Bool
deriving Repr, DecidableEq

/-- The pre-save hook of the record schema (lines 161-171): when
`contenido` was modified, store the SHA-256 digest of its serialization in
`documento.hash` and stamp `documento.createdAt`. -/
def expedientePreSave (sha256hex : String → String) (now : Int)
    (isModifiedContenido : Bool) (e : ExpedienteDoc) : ExpedienteDoc :=
  if isModifiedContenido then
    { e with documento :=
        { e.documento with
            hash := some (sha256hex (stringifyContenido e.contenido))
            createdAt := some now } }
  else e

/-- `expedienteSchema.methods.verificarIntegridad` (lines 174-181):
recompute the digest of the current content and compare it with the stored
hash (strict equality; an absent stored hash never compares equal). -/
def verificarIntegridad (sha256hex : String → String) (e : ExpedienteDoc) : Bool :=
  match e.documento.hash with
  | some h => sha256hex (stringifyContenido e.contenido) == h
  | none => false

/-! ## Firma.create input (controllers/expedienteController.js, lines 191-202)

The controller passes `expedienteId` and `doctorId`, which are not schema
paths, so strict mode drops them; only `certificado.numeroSerie`,
`certificado.emisor` and `certificado.vigencia` reach the document.  Every
other required path of the signature schema is absent. -/

/-- Raw create argument for the `Firma` model, before validation: one
option per required schema path. -/
structure FirmaInput where
  expediente : Option ObjectId
  firmante : Option ObjectId
  numeroSerie : Option String
  emisor : EmisorInfo
  vigenciaInicio : Option Int
  vigenciaFin : Option Int
  certificadoPublico : Option String
  algoritmo : Option String
  cadenaOriginal : Option String
  selloDigital : Option String
  hashDocumento : Option String
  proposito : Option String
deriving Repr, DecidableEq

/-- Required-path validation messages for a signature create, using the
custom messages the schema declares and the path name otherwise. -/
def firmaInputErrors (i : FirmaInput) : List String :=
  (if i.expediente.isSome then [] else ["El expediente es requerido"]) ++
  (if i.firmante.isSome then [] else ["El firmante es requerido"]) ++
  (if i.numeroSerie.isSome then []
   else ["El número de serie del certificado es requerido"]) ++
  (if i.vigenciaInicio.isSome then [] else ["certificado.vigencia.inicio"]) ++
  (if i.vigenciaFin.isSome then [] else ["certificado.vigencia.fin"]) ++
  (if i.certificadoPublico.isSome then [] else ["certificado.certificadoPublico"]) ++
  (if i.cadenaOriginal.isSome then [] else ["firma.cadenaOriginal"]) ++
  (if i.selloDigital.isSome then [] else ["firma.selloDigital"]) ++
  (if i.hashDocumento.isSome then [] else ["firma.hashDocumento"]) ++
  (if i.proposito.isSome then [] else ["metadata.proposito"])

/-- `Firma.create`: validate the required paths; when all are present,
build the document with the schema defaults (algoritmo RSA-SHA256, estado
valida, timestamp now) and save it. -/
def firmaCreate (saveOk : Bool) (now : Int) (newId : ObjectId) (i : FirmaInput) :
    Except DbError FirmaDoc :=
  match i.expediente, i.firmante, i.numeroSerie, i.vigenciaInicio, i.vigenciaFin,
        i.certificadoPublico, i.cadenaOriginal, i.selloDigital, i.hashDocumento,
        i.proposito with
  | some ex, some fi, some ns, some vi, some vf, some cp, some co, some sd,
    some hd, some pr =>
      let doc : FirmaDoc :=
        { id := newId
          expediente := ex
          firmante := fi
          certificado := { numeroSerie := ns, emisor := i.emisor,
                           vigenciaInicio := vi, vigenciaFin := vf,
                           certificadoPublico := cp }
          firma := { algoritmo := i.algoritmo.getD "RSA-SHA256",
                     cadenaOriginal := co, selloDigital := sd,
                     hashDocumento := hd }
          timestampFecha := now
          proposito := pr
          estado := "valida"
          revocacion := none }
      saveFirma saveOk doc
  | _, _, _, _, _, _, _, _, _, _ =>
      Except.error (DbError.validationError (firmaInputErrors i))

/-! ## Request pipeline (expedienteController.firmarExpediente and the
error middleware of errorHandler.js) -/

/-- Certificate fields of the sign request body. -/
structure CertificadoReq where
  numeroSerie : String
  emisor : EmisorInfo
  vigenciaInicio : Int
  vigenciaFin : Int
deriving Repr, DecidableEq

/-- An authenticated sign request: user placed by the auth middleware,
path parameter, certificate body, and the request network context. -/
structure FirmarRequest where
  user : UserDoc
  paramsId : ObjectId
  certificado : CertificadoReq
  ip : Option String
  userAgent : Option String
  sessionId : Option String
deriving Repr, DecidableEq

/-- The persistent state the sign pipeline touches. -/
structure SystemState where
  expedientes : List ExpedienteDoc
  firmas : List FirmaDoc
  auditLogs : List AuditLogDoc
deriving Repr, DecidableEq

/-- `Expediente.findById` with the soft-delete find hook (record schema
lines 195-200): inactive documents are filtered out. -/
def findExpedienteById (i : ObjectId) (l : List ExpedienteDoc) : Option ExpedienteDoc :=
  l.find? (fun e => e.id == i && e.active)

/-- Operational error of errorHandler.js: message, HTTP status, optional
machine-readable code. -/
structure AppError where
  message : String
  statusCode : Nat
  errorCode : Option String
deriving Repr, DecidableEq

/-- An error travelling to the error middleware: an explicit AppError
passed to next, or a database error thrown by a model call. -/
inductive JsError where
  | app (e : AppError)
  | db (e : DbError)
deriving Repr, DecidableEq

/-- Message of the raw error, as logError reads it. -/
def rawErrorMessage : JsError → String
  | JsError.app e => e.message
  | JsError.db e => dbErrorMessage e

/-- ErrorCode of the raw error, as logError reads it. -/
def rawErrorCode : JsError → Option String
  | JsError.app e => e.errorCode
  | JsError.db _ => none

/-- `handleValidationError` of errorHandler.js (lines 27-30).  Dead in the
production path: the handler first copies the error with a spread, which
keeps only own enumerable properties, and a Mongoose ValidationError
carries its name on the prototype, so the name test guarding this
function never fires (see `transformError`). -/
def handleValidationError (msgs : List String) : AppError :=
  { message := "Datos inválidos: " ++ String.intercalate ". " msgs
    statusCode := 400
    errorCode := some "VALIDATION_ERROR" }

/-- Production error transformation of errorHandler.js (lines 92-123).
The handler spreads the incoming error into a plain object, which copies
only own enumerable properties.  An AppError sets message, statusCode,
status, errorCode and isOperational as own properties in its constructor,
so it passes through the isOperational branch unchanged.  A Mongoose
ValidationError (and the other model errors) carries its name on the
prototype, so neither the name tests nor isOperational survive the spread
and such errors fall through to the opaque 500 INTERNAL_ERROR
response. -/
def transformError : JsError → AppError
  | JsError.app e => e
  | JsError.db (DbError.validationError _) =>
      { message := "Algo salió mal", statusCode := 500,
        errorCode := some "INTERNAL_ERROR" }
  | JsError.db (DbError.hookError _) =>
      { message := "Algo salió mal", statusCode := 500,
        errorCode := some "INTERNAL_ERROR" }
  | JsError.db DbError.unavailable =>
      { message := "Algo salió mal", statusCode := 500,
        errorCode := some "INTERNAL_ERROR" }

/-- The argument object the `registrarAuditoria` helper of
expedienteController.js (lines 12-32) passes to `AuditLog.registrar`:
security context and outcome nested under `seguridad` and `resultado`,
nothing at the top level. -/
def datosRegistrarAuditoria (req : FirmarRequest) (accion : String)
    (entidadId : Option ObjectId) (detalles : Option String)
    (exitoso : Bool) (mensaje : String) : DatosAuditoria :=
  { usuario := some req.user.id
    rolUsuario := some req.user.role
    accion := some accion
    entidad := { tipo := some "Expediente", id := entidadId }
    detalles := detalles
    ip := none
    userAgent := none
    sessionId := none
    exitoso := none
    mensaje := none
    codigoError := none
    seguridad := some { ip := req.ip, userAgent := req.userAgent,
                        sessionId := req.sessionId }
    resultado := some { exitoso := some exitoso, mensaje := some mensaje,
                        codigoError := none } }

/-- The argument object `logError` of errorHandler.js (lines 40-71) passes
to `AuditLog.registrar` when an error reaches the middleware: again nested
`seguridad` and `resultado`, nothing at the top level. -/
def datosLogError (req : FirmarRequest) (e : JsError) : DatosAuditoria :=
  { usuario := some req.user.id
    rolUsuario := some req.user.role
    accion := some "error_sistema"
    entidad := { tipo := some "Sistema", id := none }
    detalles := some (rawErrorMessage e)
    ip := none
    userAgent := none
    sessionId := none
    exitoso := none
    mensaje := none
    codigoError := none
    seguridad := some { ip := req.ip, userAgent := req.userAgent,
                        sessionId := req.sessionId }
    resultado := some { exitoso := some false,
                        mensaje := some (rawErrorMessage e),
                        codigoError := rawErrorCode e } }

/-- HTTP response of the sign endpoint. -/
inductive Response where
  | ok (status : Nat) (expedienteId : ObjectId)
  | err (status : Nat) (message : String) (errorCode : Option String)
deriving Repr, DecidableEq

/-- The `Firma.create` argument assembled by the controller (lines
191-202): only the certificate fields survive strict mode; every other
required path of the signature schema is left absent. -/
def controllerFirmaInput (req : FirmarRequest) : FirmaInput :=
  { expediente := none
    firmante := none
    numeroSerie := some req.certificado.numeroSerie
    emisor := req.certificado.emisor
    vigenciaInicio := some req.certificado.vigenciaInicio
    vigenciaFin := some req.certificado.vigenciaFin
    certificadoPublico := none
    algoritmo := none
    cadenaOriginal := none
    selloDigital := none
    hashDocumento := none
    proposito := none }

/-- `firmarExpediente` (controller lines 176-239) up to the error
middleware: role guard, lookup, already-signed guard, signature creation,
record update and the success audit append.  Errors are surfaced to the
middleware through the Except. -/
def firmarExpedienteCore (sha256hex : String → String) (now : Int) (saveOk : Bool)
    (nextFirmaId : ObjectId) (req : FirmarRequest) (st : SystemState) :
    Except JsError (Response × SystemState) :=
  if req.user.role != "doctor" then
    Except.error (JsError.app
      { message := "Solo doctores pueden firmar expedientes", statusCode := 403,
        errorCode := none })
  else
    match findExpedienteById req.paramsId st.expedientes with
    | none => Except.error (JsError.app
        { message := "No se encontró el expediente", statusCode := 404,
          errorCode := none })
    | some expediente =>
      if expediente.estado == "firmado" then
        Except.error (JsError.app
          { message := "El expediente ya está firmado", statusCode := 400,
            errorCode := none })
      else
        match firmaCreate saveOk now nextFirmaId (controllerFirmaInput req) with
        | Except.error e => Except.error (JsError.db e)
        | Except.ok firma =>
          let expediente' : ExpedienteDoc :=
            { expediente with
                firmaDigital := some
                  { firmante := req.user.id
                    fechaFirma := now
                    certNumeroSerie := some firma.certificado.numeroSerie
                    certEmisor := firma.certificado.emisor.nombreComun
                    certVigenciaInicio := some firma.certificado.vigenciaInicio
                    certVigenciaFin := some firma.certificado.vigenciaFin
                    -- the source assigns the whole firma.firma object to the
                    -- String path selloDigital; its selloDigital component
                    -- stands in for that cast here
                    selloDigital := some firma.firma.selloDigital
                    cadenaOriginal := none }
                estado := "firmado" }
          let expediente'' := expedientePreSave sha256hex now false expediente'
          let expedientes' := st.expedientes.map
            (fun e => if e.id == expediente.id then expediente'' else e)
          let st' : SystemState :=
            { st with expedientes := expedientes', firmas := st.firmas ++ [firma] }
          let r := registrar saveOk now
            (datosRegistrarAuditoria req "firmar" (some expediente.id)
              (some ("firma=" ++ toString firma.id)) true
              "Expediente firmado exitosamente") st'.auditLogs
          Except.ok (Response.ok 200 expediente.id, { st' with auditLogs := r.2.1 })

/-- The full sign pipeline: the controller wrapped by catchAsync and the
error middleware — on error, logError attempts an audit append of the raw
error, then the transformed operational error is sent as the response. -/
def handleFirmarExpediente (sha256hex : String → String) (now : Int) (saveOk : Bool)
    (nextFirmaId : ObjectId) (req : FirmarRequest) (st : SystemState) :
    Response × SystemState :=
  match firmarExpedienteCore sha256hex now saveOk nextFirmaId req st with
  | Except.ok r => r
  | Except.error e =>
    let r := registrar saveOk now (datosLogError req e) st.auditLogs
    let ae := transformError e
    (Response.err ae.statusCode ae.message ae.errorCode,
     { st with auditLogs := r.2.1 })

/-! ## auditController.getAuditLogs (lines 32-107) -/

/-- Query-string parameters and network context of an audit-log request.
Query-string values arrive as strings; `exitoso` is compared against the
literal string true in the controller. -/
structure AuditQueryParams where
  usuario : Option ObjectId
  rolUsuario : Option String
  accion : Option String
  entidadTipo : Option String
  entidadId : Option ObjectId
  exitoso : Option String
  fechaInicio : Option Int
  fechaFin : Option Int
  page : Option Nat
  limit : Option Nat
  ip : Option String
  userAgent : Option String
  sessionId : Option String
deriving Repr, DecidableEq

/-- Filter object assembled by getAuditLogs (lines 39-80), field by field;
string filters are guarded by JS truthiness (empty string falsy), object
ids are truthy when present, `exitoso` by an explicit undefined test. -/
def getAuditLogsQuery (q : AuditQueryParams) : MongoAuditQuery :=
  { usuario := q.usuario
    rolUsuario := match q.rolUsuario with
      | some r => if r == "" then none else some r
      | none => none
    accion := match q.accion with
      | some a => if a == "" then none else some a
      | none => none
    entidadTipo := match q.entidadTipo with
      | some t => if t == "" then none else some t
      | none => none
    entidadId := q.entidadId
    exitoso := q.exitoso.map (fun s => s == "true")
    tsGte := q.fechaInicio
    tsLte := q.fechaFin }

/-- Response of the audit-log listing endpoint. -/
inductive AuditResponse where
  | ok (results : Nat) (total : Nat) (logs : List AuditLogDoc)
  | err (status : Nat) (message : String)
deriving Repr, DecidableEq

/-- The argument object `registrarConsultaAuditoria` (auditController
lines 6-29) passes to `AuditLog.registrar`: nested `seguridad` and
`resultado`, nothing at the top level. -/
def datosConsultaAuditoria (user : UserDoc) (q : AuditQueryParams)
    (resultados : Nat) : DatosAuditoria :=
  { usuario := some user.id
    rolUsuario := some user.role
    accion := some "consultar_auditoria"
    entidad := { tipo := some "AuditLog", id := none }
    detalles := some ("resultados=" ++ toString resultados)
    ip := none
    userAgent := none
    sessionId := none
    exitoso := none
    mensaje := none
    codigoError := none
    seguridad := some { ip := q.ip, userAgent := q.userAgent,
                        sessionId := q.sessionId }
    resultado := some { exitoso := some true,
                        mensaje := some "Consulta de registros de auditoría exitosa",
                        codigoError := none } }

/-- `getAuditLogs` (auditController lines 32-107): admin guard, filter
construction, newest-first query with page and limit pagination, total
count, then the self-audit append attempt; the response is built from the
query results only. -/
def getAuditLogs (saveOk : Bool) (now : Int) (user : UserDoc)
    (q : AuditQueryParams) (store : List AuditLogDoc) :
    AuditResponse × List AuditLogDoc :=
  if user.role != "admin" then
    (AuditResponse.err 403 "No tiene permiso para ver registros de auditoría", store)
  else
    let filtros := getAuditLogsQuery q
    let page := match q.page with | some p => if p == 0 then 1 else p | none => 1
    let limit := match q.limit with | some l => if l == 0 then 50 else l | none => 50
    let skip := (page - 1) * limit
    let matching := store.filter (fun d => matchesQuery filtros d)
    let logs := ((sortByTimestampDesc matching).drop skip).take limit
    let total := matching.length
    let r := registrar saveOk now (datosConsultaAuditoria user q logs.length) store
    (AuditResponse.ok logs.length total logs, r.2.1)

/-! ## Helper lemmas -/

/-- A document without a top-level network origin fails the required
`seguridad.ip` path of the audit schema. -/
lemma validAuditLogDoc_false_of_ip_none (d : AuditLogDoc)
    (h : d.seguridad.ip = none) : validAuditLogDoc d = false := by
  have hm : "seguridad.ip" ∈ auditValidationErrors d := by
    unfold auditValidationErrors
    simp [h]
  unfold validAuditLogDoc
  cases he : auditValidationErrors d with
  | nil => rw [he] at hm; cases hm
  | cons a t => simp

/-- When the argument object has no top-level `ip`, the document built by
`registrar` fails validation and `registrar` returns null with the store
unchanged and a diagnostic line. -/
lemma registrar_of_ip_none (saveOk : Bool) (now : Int) (datos : DatosAuditoria)
    (store : List AuditLogDoc) (h : datos.ip = none) :
    registrar saveOk now datos store
      = (none, store,
         ["Error al registrar auditoría: "
            ++ dbErrorMessage (DbError.validationError
                 (auditValidationErrors (registrarDoc now datos)))]) := by
  have hv : validAuditLogDoc (registrarDoc now datos) = false :=
    validAuditLogDoc_false_of_ip_none _ (by simp [registrarDoc, h])
  unfold registrar saveAuditLog
  simp [hv]

/-- The create argument the sign controller assembles never passes the
signature schema validation (the required paths expediente, firmante,
certificadoPublico, cadenaOriginal, selloDigital, hashDocumento and
proposito are absent). -/
lemma firmaCreate_controllerInput (saveOk : Bool) (now : Int) (newId : ObjectId)
    (req : FirmarRequest) :
    firmaCreate saveOk now newId (controllerFirmaInput req)
      = Except.error (DbError.validationError
          (firmaInputErrors (controllerFirmaInput req))) := rfl

/-- Saving an audit document leaves the store unchanged whenever the save
fails. -/
lemma saveAuditLog_error_store (saveOk isNew : Bool) (doc : AuditLogDoc)
    (store : List AuditLogDoc) (e : DbError)
    (h : (saveAuditLog saveOk isNew doc store).1 = Except.error e) :
    (saveAuditLog saveOk isNew doc store).2 = store := by
  unfold saveAuditLog at h ⊢
  cases hv : validAuditLogDoc doc
  · simp [hv]
  · cases isNew
    · simp [hv, auditPreSave]
    · cases saveOk
      · simp [hv, auditPreSave]
      · simp [hv, auditPreSave] at h

/-- Ordered newest-first by timestamp. -/
def NewestFirst : List AuditLogDoc → Prop :=
  List.Pairwise (fun a b => b.timestamp ≤ a.timestamp)

lemma mem_insertDesc {a d : AuditLogDoc} {l : List AuditLogDoc} :
    a ∈ insertDesc d l ↔ a = d ∨ a ∈ l := by
  induction l with
  | nil => simp [insertDesc]
  | cons x xs ih =>
    unfold insertDesc
    by_cases h : d.timestamp ≤ x.timestamp
    · simp only [if_pos h, List.mem_cons, ih]
      tauto
    · simp only [if_neg h, List.mem_cons]

lemma mem_sortByTimestampDesc {a : AuditLogDoc} {l : List AuditLogDoc} :
    a ∈ sortByTimestampDesc l ↔ a ∈ l := by
  induction l with
  | nil => simp [sortByTimestampDesc]
  | cons x xs ih => simp [sortByTimestampDesc, mem_insertDesc, ih]

lemma pairwise_insertDesc {d : AuditLogDoc} {l : List AuditLogDoc}
    (h : NewestFirst l) : NewestFirst (insertDesc d l) := by
  induction l with
  | nil => simp [insertDesc, NewestFirst]
  | cons x xs ih =>
    unfold NewestFirst at *
    rcases List.pairwise_cons.mp h with ⟨hx, hxs⟩
    unfold insertDesc
    by_cases hc : d.timestamp ≤ x.timestamp
    · simp only [if_pos hc]
      refine List.pairwise_cons.mpr ⟨?_, ih hxs⟩
      intro y hy
      rcases mem_insertDesc.mp hy with rfl | hyl
      · exact hc
      · exact hx y hyl
    · simp only [if_neg hc]
      push_neg at hc
      refine List.pairwise_cons.mpr ⟨?_, h⟩
      intro y hy
      rcases List.mem_cons.mp hy with rfl | hyl
      · exact le_of_lt hc
      · exact le_trans (hx y hyl) (le_of_lt hc)

lemma sorted_sortByTimestampDesc (l : List AuditLogDoc) :
    NewestFirst (sortByTimestampDesc l) := by
  induction l with
  | nil => simp [sortByTimestampDesc, NewestFirst]
  | cons x xs ih => exact pairwise_insertDesc ih

/-- A strictly newest element of the list is the head of the sorted
output. -/
lemma head_sortDesc_of_strict_max {d : AuditLogDoc} {l : List AuditLogDoc}
    (hd : d ∈ l) (hmax : ∀ x ∈ l, x ≠ d → x.timestamp < d.timestamp) :
    (sortByTimestampDesc l).head? = some d := by
  have hmem : d ∈ sortByTimestampDesc l := mem_sortByTimestampDesc.mpr hd
  have hsorted := sorted_sortByTimestampDesc l
  cases hs : sortByTimestampDesc l with
  | nil => rw [hs] at hmem; cases hmem
  | cons h t =>
    rw [hs] at hmem hsorted
    have hhl : h ∈ l := mem_sortByTimestampDesc.mp (hs ▸ List.mem_cons_self h t)
    rcases List.mem_cons.mp hmem with rfl | hdt
    · rfl
    · by_cases hne : h = d
      · simp [hne]
      · exfalso
        have h1 : d.timestamp ≤ h.timestamp :=
          (List.pairwise_cons.mp hsorted).1 d hdt
        exact absurd h1 (not_le.mpr (hmax h hhl hne))

/-- Rewrites the stored hash of every record in the state. -/
def hashMapFn (fh : Option String → Option String) (e : ExpedienteDoc) :
    ExpedienteDoc :=
  { e with documento := { e.documento with hash := fh e.documento.hash } }

/-- State with every stored record hash rewritten by `fh`. -/
def mapExpedienteHashes (fh : Option String → Option String) (st : SystemState) :
    SystemState :=
  { st with expedientes := st.expedientes.map (hashMapFn fh) }

/-- Record lookup is insensitive to the stored hashes. -/
lemma findExpedienteById_map_hash (i : ObjectId)
    (fh : Option String → Option String) (l : List ExpedienteDoc) :
    findExpedienteById i (l.map (hashMapFn fh))
      = (findExpedienteById i l).map (hashMapFn fh) := by
  unfold findExpedienteById
  rw [List.find?_map]
  rfl

/-! ## Sample data for concrete witnesses and counterexamples -/

/-- A schema-valid audit document. -/
def auditDocSample : AuditLogDoc :=
  { usuario := some 1
    rolUsuario := some "admin"
    accion := some "login"
    entidad := { tipo := some "Usuario", id := some 2 }
    detalles := none
    seguridad := { ip := some "127.0.0.1", userAgent := none, sessionId := none }
    resultado := { exitoso := some true, mensaje := none, codigoError := none }
    timestamp := 5 }

/-- A concrete clinical payload. -/
def contenidoSample : Contenido :=
  { fecha := 0
    motivo := some "control"
    padecimientoActual := none
    diagnostico := some "sano"
    tratamiento := none
    pronostico := none
    datosEspecificos := "\"x\""
    metadata := { version := 1, ultimaModificacion := none, modificadoPor := none } }

/-- A draft record whose stored hash is the stale value h1. -/
def expedienteSample : ExpedienteDoc :=
  { id := 1
    paciente := 2
    tipo := "historia_clinica"
    contenido := contenidoSample
    documento := { url := none, hash := some "h1", createdAt := none }
    firmaDigital := none
    estado := "borrador"
    createdBy := 3
    active := true }

/-- A digest stand-in under which the recomputed hash of every content is
h2, so the stored h1 of `expedienteSample` is a mismatch. -/
def shaSample : String → String := fun _ => "h2"

/-- Empty issuer block. -/
def emisorSample : EmisorInfo :=
  { nombreComun := none, organizacion := none, unidad := none, pais := none }

/-- A doctor. -/
def userSample : UserDoc := { id := 10, role := "doctor" }

/-- A sign request aimed at `expedienteSample`. -/
def reqSample : FirmarRequest :=
  { user := userSample
    paramsId := 1
    certificado := { numeroSerie := "123", emisor := emisorSample,
                     vigenciaInicio := 0, vigenciaFin := 100 }
    ip := some "127.0.0.1"
    userAgent := none
    sessionId := none }

/-- System state holding only the mismatched draft record. -/
def stSample : SystemState :=
  { expedientes := [expedienteSample], firmas := [], auditLogs := [] }

/-- A persisted signature whose certificate window is
2020-01-01 .. 2021-01-01 (ms since epoch) and which is also revoked. -/
def firmaExpiredSample : FirmaDoc :=
  { id := 20
    expediente := 1
    firmante := 10
    certificado := { numeroSerie := "123", emisor := emisorSample,
                     vigenciaInicio := 1577836800000,
                     vigenciaFin := 1609459200000,
                     certificadoPublico := "PEM" }
    firma := { algoritmo := "RSA-SHA256", cadenaOriginal := "cadena",
               selloDigital := "sello", hashDocumento := "h1" }
    timestampFecha := 1577836800000
    proposito := "nota_medica"
    estado := "revocada"
    revocacion := some { fecha := some 1577836800001, motivo := some "r",
                         revocadaPor := some 2 } }

/-- An already-revoked signature with a valid certificate window. -/
def firmaRevokedSample : FirmaDoc :=
  { id := 21
    expediente := 1
    firmante := 10
    certificado := { numeroSerie := "124", emisor := emisorSample,
                     vigenciaInicio := 0, vigenciaFin := 1000000,
                     certificadoPublico := "PEM" }
    firma := { algoritmo := "RSA-SHA256", cadenaOriginal := "cadena",
               selloDigital := "sello", hashDocumento := "h1" }
    timestampFecha := 10
    proposito := "nota_medica"
    estado := "revocada"
    revocacion := some { fecha := some 10, motivo := some "motivo original",
                         revocadaPor := some 7 } }

/-! ## Claim theorems -/

/-- C1: for every existing (already persisted, hence schema-valid)
AuditRecord, any attempted save of the non-new document fails with the
immutable-record violation raised by the pre-save hook and leaves the
store unchanged; a save can only succeed for a new document. -/
theorem auditRecord_immutable (saveOk : Bool) (doc : AuditLogDoc)
    (store : List AuditLogDoc) :
    (validAuditLogDoc doc = true →
       saveAuditLog saveOk false doc store
         = (Except.error (DbError.hookError auditImmutableMsg), store))
    ∧ (∀ (isNew : Bool) (r : AuditLogDoc) (store' : List AuditLogDoc),
         saveAuditLog saveOk isNew doc store = (Except.ok r, store')
         → isNew = true) := by
  constructor
  · intro hv
    unfold saveAuditLog auditPreSave
    simp [hv]
  · intro isNew r store' h
    cases isNew
    · exfalso
      unfold saveAuditLog auditPreSave at h
      cases hv : validAuditLogDoc doc <;> simp [hv] at h
    · rfl

/-- C1 witness: a concrete valid audit document; saving it as an existing
document fails with the immutability error and the store keeps its single
record. -/
theorem auditRecord_immutable_witness :
    validAuditLogDoc auditDocSample = true
    ∧ saveAuditLog true false auditDocSample [auditDocSample]
        = (Except.error (DbError.hookError auditImmutableMsg), [auditDocSample]) :=
  ⟨by decide, (auditRecord_immutable true auditDocSample [auditDocSample]).1 (by decide)⟩

/-- C3: whenever the verification instant lies outside the certificate
window, verificarFirma returns invalid with the expired-certificate
message, regardless of the revocation state and of the cryptographic
check — the window check runs first and short-circuits. -/
theorem verificarFirma_window_first
    (cryptoVerify : String → String → String → String → Bool) (ahora : Int)
    (f : FirmaDoc)
    (h : ahora < f.certificado.vigenciaInicio ∨ f.certificado.vigenciaFin < ahora) :
    verificarFirma cryptoVerify ahora f
      = { valida := false, mensaje := "El certificado ha expirado",
          detalles := none } := by
  unfold verificarFirma
  rw [if_pos h]

/-- C3 witness: certificate window 2020-01-01 .. 2021-01-01 verified at
2022-01-01 on a signature that is even revoked and whose cryptographic
check would succeed — the result is still the expired-certificate
failure. -/
theorem verificarFirma_window_first_witness :
    firmaExpiredSample.estado = "revocada"
    ∧ verificarFirma (fun _ _ _ _ => true) 1640995200000 firmaExpiredSample
        = { valida := false, mensaje := "El certificado ha expirado",
            detalles := none } :=
  ⟨rfl, verificarFirma_window_first (fun _ _ _ _ => true) 1640995200000
    firmaExpiredSample (Or.inr (by decide))⟩

/-- C6: the hash binder round-trip law — after a save in which the content
was modified, the stored hash is the digest of the canonical serialization
of the content, so verificarIntegridad on the unmodified record returns
true; and the binder is a function of the content alone, so equal contents
always bind to equal hashes. -/
theorem hashBinder_roundtrip :
    (∀ (sha256hex : String → String) (now : Int) (e : ExpedienteDoc),
       verificarIntegridad sha256hex (expedientePreSave sha256hex now true e) = true)
    ∧ (∀ (sha256hex : String → String) (c c' : Contenido), c = c' →
       sha256hex (stringifyContenido c) = sha256hex (stringifyContenido c')) := by
  constructor
  · intro sha now e
    unfold expedientePreSave verificarIntegridad
    simp
  · intro sha c c' h
    rw [h]

/-- C6 witness: the round-trip law at a concrete record and digest, and
bind determinism at a concrete content. -/
theorem hashBinder_roundtrip_witness :
    verificarIntegridad shaSample (expedientePreSave shaSample 5 true expedienteSample) = true
    ∧ shaSample (stringifyContenido contenidoSample)
        = shaSample (stringifyContenido contenidoSample) :=
  ⟨hashBinder_roundtrip.1 shaSample 5 expedienteSample,
   hashBinder_roundtrip.2 shaSample contenidoSample contenidoSample rfl⟩

/-- C4 counterexample: calling revocar on the concrete already-revoked
signature does not fail — it succeeds and overwrites the revocation
sub-record with the new date, reason and revoker, so the claimed
AlreadyRevoked failure and the unchanged-fields guarantee are both false
of the code. -/
theorem revocar_counterexample :
    firmaRevokedSample.estado = "revocada"
    ∧ revocar true 100 userSample "segunda revocación" firmaRevokedSample []
        = Except.ok ({ firmaRevokedSample with
            estado := "revocada"
            revocacion := some { fecha := some 100,
                                 motivo := some "segunda revocación",
                                 revocadaPor := some 10 } }, [])
    ∧ (some { fecha := some 100, motivo := some "segunda revocación",
              revocadaPor := some 10 } : Option Revocacion)
        ≠ firmaRevokedSample.revocacion := by
  refine ⟨rfl, rfl, by decide⟩

/-- C4 amended: revocar performs no state check at all — on any signature
(already revoked or not) whose enum fields pass save validation and with
the store reachable, it succeeds, unconditionally sets the state to
revocada and overwrites the revocacion fields with the new date, reason
and revoker; the audit append it then attempts persists nothing (its
argument carries no top-level ip), so the audit store is returned
unchanged. -/
theorem revocar_overwrites_unconditionally (ahora : Int) (usuario : UserDoc)
    (motivo : String) (f : FirmaDoc) (store : List AuditLogDoc)
    (h1 : algoritmosPermitidos.contains f.firma.algoritmo = true)
    (h2 : propositosPermitidos.contains f.proposito = true) :
    revocar true ahora usuario motivo f store
      = Except.ok ({ f with
          estado := "revocada"
          revocacion := some { fecha := some ahora, motivo := some motivo,
                               revocadaPor := some usuario.id } }, store) := by
  have hv : validFirmaDoc { f with
      estado := "revocada"
      revocacion := some { fecha := some ahora, motivo := some motivo,
                           revocadaPor := some usuario.id } } = true := by
    simp only [validFirmaDoc, Bool.and_eq_true]
    exact ⟨⟨h1, h2⟩, by decide⟩
  have hr := registrar_of_ip_none true ahora
    (datosRevocacionAudit usuario f motivo) store rfl
  unfold revocar saveFirma
  simp [hv, hr]

/-- C4 witness: the amended law applied to the concrete already-revoked
signature at a later instant. -/
theorem revocar_overwrites_witness :
    firmaRevokedSample.estado = "revocada"
    ∧ revocar true 200 userSample "tercera" firmaRevokedSample []
        = Except.ok ({ firmaRevokedSample with
            estado := "revocada"
            revocacion := some { fecha := some 200, motivo := some "tercera",
                                 revocadaPor := some 10 } }, []) :=
  ⟨rfl, revocar_overwrites_unconditionally 200 userSample "tercera"
    firmaRevokedSample [] (by decide) (by decide)⟩

/-- C5: the audit append is best-effort relative to the primary
operation — registrar returns null on any internal save failure, leaving
the store unchanged and writing the secondary failure to the diagnostic
channel instead of throwing; and the response of an audited primary
operation (the audit-log listing) is identical whether or not its own
audit append can persist. -/
theorem registrar_best_effort :
    (∀ (saveOk : Bool) (now : Int) (datos : DatosAuditoria)
       (store : List AuditLogDoc),
       (registrar saveOk now datos store).1 = none →
         (registrar saveOk now datos store).2.1 = store
         ∧ (registrar saveOk now datos store).2.2 ≠ [])
    ∧ (∀ (saveOk saveOk' : Bool) (now : Int) (user : UserDoc)
         (q : AuditQueryParams) (store : List AuditLogDoc),
       (getAuditLogs saveOk now user q store).1
         = (getAuditLogs saveOk' now user q store).1) := by
  constructor
  · intro saveOk now datos store h
    unfold registrar at h ⊢
    rcases hsa : saveAuditLog saveOk true (registrarDoc now datos) store with ⟨res, store2⟩
    rw [hsa] at h
    cases res with
    | ok d => exact Option.noConfusion h
    | error e =>
      have h1 : (saveAuditLog saveOk true (registrarDoc now datos) store).1
          = Except.error e := by rw [hsa]
      have h2 := saveAuditLog_error_store saveOk true (registrarDoc now datos) store e h1
      rw [hsa] at h2
      exact ⟨h2, List.cons_ne_nil _ _⟩
  · intro saveOk saveOk' now user q store
    unfold getAuditLogs
    cases hr : user.role != "admin" <;> simp [hr]

/-- C5 witness: a concrete append whose argument carries its values only
in the nested objects fails internally; registrar returns null, the store
is unchanged and a diagnostic line is emitted. -/
theorem registrar_best_effort_witness :
    (registrar true 7 (datosRevocacionAudit userSample firmaRevokedSample "m") []).2.1 = []
    ∧ (registrar true 7 (datosRevocacionAudit userSample firmaRevokedSample "m") []).2.2 ≠ [] :=
  registrar_best_effort.1 true 7
    (datosRevocacionAudit userSample firmaRevokedSample "m") [] (by decide)

/-- C10: registrar reads the network context and outcome from top-level
fields of its argument while the schema requires seguridad.ip and
resultado.exitoso; for every argument carrying these values only under the
nested seguridad and resultado objects — the shape every in-repository
caller produces, as the remaining conjuncts show for the helpers of
expedienteController, auditController, the revocar method and the error
middleware — validation fails, registrar returns null and no record is
persisted. -/
theorem registrar_drops_nested_caller_payload :
    (∀ (saveOk : Bool) (now : Int) (datos : DatosAuditoria)
       (store : List AuditLogDoc),
       datos.ip = none → datos.exitoso = none →
         (registrar saveOk now datos store).1 = none
         ∧ (registrar saveOk now datos store).2.1 = store)
    ∧ (∀ req accion eid det ex msg,
         (datosRegistrarAuditoria req accion eid det ex msg).ip = none
         ∧ (datosRegistrarAuditoria req accion eid det ex msg).exitoso = none)
    ∧ (∀ user q n,
         (datosConsultaAuditoria user q n).ip = none
         ∧ (datosConsultaAuditoria user q n).exitoso = none)
    ∧ (∀ usuario f motivo,
         (datosRevocacionAudit usuario f motivo).ip = none
         ∧ (datosRevocacionAudit usuario f motivo).exitoso = none)
    ∧ (∀ req e,
         (datosLogError req e).ip = none
         ∧ (datosLogError req e).exitoso = none) := by
  refine ⟨?_, fun _ _ _ _ _ _ => ⟨rfl, rfl⟩, fun _ _ _ => ⟨rfl, rfl⟩,
    fun _ _ _ => ⟨rfl, rfl⟩, fun _ _ => ⟨rfl, rfl⟩⟩
  intro saveOk now datos store hip _
  rw [registrar_of_ip_none saveOk now datos store hip]
  exact ⟨rfl, rfl⟩

/-- C10 witness: the concrete argument built by the expedienteController
audit helper is dropped — registrar yields null and leaves the store
empty. -/
theorem registrar_drops_nested_witness :
    (registrar true 9 (datosRegistrarAuditoria reqSample "firmar" (some 1)
        none true "ok") []).1 = none
    ∧ (registrar true 9 (datosRegistrarAuditoria reqSample "firmar" (some 1)
        none true "ok") []).2.1 = [] :=
  registrar_drops_nested_caller_payload.1 true 9
    (datosRegistrarAuditoria reqSample "firmar" (some 1) none true "ok") []
    rfl rfl

/-- C9: a sign request by a doctor on a record that is already in state
firmado fails with the already-signed 400 error and leaves the whole
state — records, signatures and audit store — unchanged, so no Signature
is created and the record state is untouched. -/
theorem firmar_already_signed (sha256hex : String → String) (now : Int)
    (saveOk : Bool) (fid : ObjectId) (req : FirmarRequest) (st : SystemState)
    (e : ExpedienteDoc)
    (hrole : req.user.role = "doctor")
    (hfind : findExpedienteById req.paramsId st.expedientes = some e)
    (hestado : e.estado = "firmado") :
    handleFirmarExpediente sha256hex now saveOk fid req st
      = (Response.err 400 "El expediente ya está firmado" none, st) := by
  have hr := registrar_of_ip_none saveOk now
    (datosLogError req (JsError.app
      { message := "El expediente ya está firmado", statusCode := 400,
        errorCode := none })) st.auditLogs rfl
  unfold handleFirmarExpediente firmarExpedienteCore
  rw [hfind]
  simp [hrole, hestado, hr, transformError]

/-- The sign controller can never reach its success branch: the signature
create argument it assembles always fails schema validation. -/
lemma firmarCore_ne_ok (sha256hex : String → String) (now : Int) (saveOk : Bool)
    (fid : ObjectId) (req : FirmarRequest) (st : SystemState)
    (r : Response × SystemState) :
    firmarExpedienteCore sha256hex now saveOk fid req st ≠ Except.ok r := by
  unfold firmarExpedienteCore
  cases hrole : req.user.role != "doctor"
  · cases hfind : findExpedienteById req.paramsId st.expedientes with
    | none => simp [hrole, hfind]
    | some e0 =>
      cases hest : e0.estado == "firmado"
      · simp [hrole, hfind, hest, firmaCreate_controllerInput]
      · simp [hrole, hfind, hest]
  · simp [hrole]

/-- The sign pipeline produces the same error on a state with every stored
hash rewritten as on the original state. -/
lemma firmarCore_map_hash (sha256hex : String → String) (now : Int) (saveOk : Bool)
    (fid : ObjectId) (req : FirmarRequest) (st : SystemState)
    (fh : Option String → Option String) :
    ∃ e : JsError,
      firmarExpedienteCore sha256hex now saveOk fid req (mapExpedienteHashes fh st)
        = Except.error e
      ∧ firmarExpedienteCore sha256hex now saveOk fid req st = Except.error e := by
  unfold firmarExpedienteCore mapExpedienteHashes
  cases hrole : req.user.role != "doctor"
  · rw [findExpedienteById_map_hash]
    cases hfind : findExpedienteById req.paramsId st.expedientes with
    | none =>
      refine ⟨JsError.app
        { message := "No se encontró el expediente", statusCode := 404,
          errorCode := none }, ?_, ?_⟩
      · simp [hrole, hfind]
      · simp [hrole, hfind]
    | some e0 =>
      cases hest : e0.estado == "firmado"
      · refine ⟨JsError.db (DbError.validationError
          (firmaInputErrors (controllerFirmaInput req))), ?_, ?_⟩
        · simp [hrole, hfind, hashMapFn, hest, firmaCreate_controllerInput]
        · simp [hrole, hfind, hest, firmaCreate_controllerInput]
      · refine ⟨JsError.app
          { message := "El expediente ya está firmado", statusCode := 400,
            errorCode := none }, ?_, ?_⟩
        · simp [hrole, hfind, hashMapFn, hest]
        · simp [hrole, hfind, hest]
  · refine ⟨JsError.app
      { message := "Solo doctores pueden firmar expedientes", statusCode := 403,
        errorCode := none }, ?_, ?_⟩
    · simp [hrole]
    · simp [hrole]

/-- C2 counterexample: the concrete draft record stores the stale hash h1
while its content recomputes to h2, yet the sign request does not fail
with any content-hash error — the pipeline leaves the entire state
unchanged (in particular zero AuditRecords with a false outcome are
appended, where the claim requires exactly one) and the failure it does
produce is the opaque 500 internal error: the signature-schema validation
failure loses its name in the error-handler spread, so it is surfaced as
non-operational, never as any hash-related failure. -/
theorem firmar_hash_mismatch_counterexample :
    verificarIntegridad shaSample expedienteSample = false
    ∧ handleFirmarExpediente shaSample 1000 true 50 reqSample stSample
        = (Response.err 500 "Algo salió mal" (some "INTERNAL_ERROR"), stSample)
    ∧ (handleFirmarExpediente shaSample 1000 true 50 reqSample stSample).2.auditLogs
        = [] :=
  ⟨by decide, rfl, rfl⟩

/-- C2 amended: the sign path performs no content-hash verification — the
outcome of a sign request is independent of the stored hash (rewriting
every stored hash leaves the response unchanged), and the pipeline never
changes the state at all: no ContentHashMismatch error exists, no record
transitions to firmado, no Signature is stored, and no AuditRecord —
in particular none with a false outcome — is appended, because the
signature create never passes schema validation and every audit append the
path attempts is itself rejected by the audit schema. -/
theorem firmar_no_hash_check :
    (∀ (sha256hex : String → String) (now : Int) (saveOk : Bool) (fid : ObjectId)
       (req : FirmarRequest) (st : SystemState),
       (handleFirmarExpediente sha256hex now saveOk fid req st).2 = st)
    ∧ (∀ (sha256hex : String → String) (now : Int) (saveOk : Bool) (fid : ObjectId)
         (req : FirmarRequest) (st : SystemState)
         (fh : Option String → Option String),
       (handleFirmarExpediente sha256hex now saveOk fid req
           (mapExpedienteHashes fh st)).1
         = (handleFirmarExpediente sha256hex now saveOk fid req st).1) := by
  constructor
  · intro sha now saveOk fid req st
    unfold handleFirmarExpediente
    cases hcore : firmarExpedienteCore sha now saveOk fid req st with
    | ok r => exact absurd hcore (firmarCore_ne_ok sha now saveOk fid req st r)
    | error e =>
      show SystemState.mk st.expedientes st.firmas
        (registrar saveOk now (datosLogError req e) st.auditLogs).2.1 = st
      rw [registrar_of_ip_none saveOk now (datosLogError req e) st.auditLogs rfl]
  · intro sha now saveOk fid req st fh
    obtain ⟨e, h1, h2⟩ := firmarCore_map_hash sha now saveOk fid req st fh
    unfold handleFirmarExpediente
    rw [h1, h2]

/-- A concrete record already in state firmado. -/
def expedienteSignedSample : ExpedienteDoc :=
  { expedienteSample with id := 4, estado := "firmado" }

/-- A sign request aimed at the signed record. -/
def reqSignedSample : FirmarRequest := { reqSample with paramsId := 4 }

/-- State holding only the signed record. -/
def stSignedSample : SystemState :=
  { expedientes := [expedienteSignedSample], firmas := [], auditLogs := [] }

/-- C9 witness: the concrete sign request on the concrete signed record
fails with the already-signed 400 error and the state is untouched. -/
theorem firmar_already_signed_witness :
    handleFirmarExpediente shaSample 1000 true 60 reqSignedSample stSignedSample
      = (Response.err 400 "El expediente ya está firmado" none, stSignedSample) :=
  firmar_already_signed shaSample 1000 true 60 reqSignedSample stSignedSample
    expedienteSignedSample rfl (by decide) rfl

/-- C7: the audit query engine — every record buscar returns is a stored
record matching the assembled query, the output is ordered newest-first,
the output is exactly the skip/limit page of the newest-first ordering of
the matching records, and the assembled query holds of a record exactly
when every given filter holds of it, with the timestamp range inclusive
on both ends. -/
theorem buscar_query_engine :
    ∀ (f : Filtros) (store : List AuditLogDoc),
    (∀ d ∈ buscar f store, d ∈ store ∧ matchesQuery (buildQuery f) d = true)
    ∧ NewestFirst (buscar f store)
    ∧ buscar f store
        = ((sortByTimestampDesc
              (store.filter (fun d => matchesQuery (buildQuery f) d))).drop
            (buscarSkip f)).take (buscarLimite f)
    ∧ (∀ d : AuditLogDoc, matchesQuery (buildQuery f) d = true ↔
        ((∀ u, f.usuario = some u → d.usuario = some u)
         ∧ (∀ a, f.accion = some a → a ≠ "" → d.accion = some a)
         ∧ (∀ t, f.entidadTipo = some t → t ≠ "" → d.entidad.tipo = some t)
         ∧ (∀ i, f.entidadId = some i → d.entidad.id = some i)
         ∧ (∀ b, f.exitoso = some b → d.resultado.exitoso = some b)
         ∧ (∀ t0, f.fechaInicio = some t0 → t0 ≤ d.timestamp)
         ∧ (∀ t1, f.fechaFin = some t1 → d.timestamp ≤ t1))) := by
  intro f store
  refine ⟨?_, ?_, rfl, ?_⟩
  · intro d hd
    unfold buscar at hd
    have h2 := (List.drop_sublist _ _).subset ((List.take_sublist _ _).subset hd)
    exact List.mem_filter.mp (mem_sortByTimestampDesc.mp h2)
  · exact (sorted_sortByTimestampDesc _).sublist
      ((List.take_sublist _ _).trans (List.drop_sublist _ _))
  · intro d
    constructor
    · intro h
      unfold matchesQuery at h
      simp only [Bool.and_eq_true] at h
      obtain ⟨⟨⟨⟨⟨⟨⟨hu, hrol⟩, hacc⟩, htip⟩, hid⟩, hex⟩, hgte⟩, hlte⟩ := h
      simp only [buildQuery] at hu hacc htip hid hex hgte hlte
      refine ⟨?_, ?_, ?_, ?_, ?_, ?_, ?_⟩
      · intro u h'
        rw [h'] at hu
        simpa using hu
      · intro a h' hne
        rw [h'] at hacc
        simpa [hne] using hacc
      · intro t h' hne
        rw [h'] at htip
        simpa [hne] using htip
      · intro i h'
        rw [h'] at hid
        simpa using hid
      · intro b h'
        rw [h'] at hex
        simpa using hex
      · intro t0 h'
        rw [h'] at hgte
        simpa using hgte
      · intro t1 h'
        rw [h'] at hlte
        simpa using hlte
    · rintro ⟨p1, p2, p3, p4, p5, p6, p7⟩
      unfold matchesQuery
      simp only [Bool.and_eq_true, buildQuery]
      refine ⟨⟨⟨⟨⟨⟨⟨?_, ?_⟩, ?_⟩, ?_⟩, ?_⟩, ?_⟩, ?_⟩, ?_⟩
      · cases hf : f.usuario with
        | none => simp
        | some u => simp [p1 u hf]
      · simp
      · cases hf : f.accion with
        | none => simp
        | some a =>
          cases ha : a == ""
          · have hne : a ≠ "" := by simpa using ha
            simp [ha, p2 a hf hne]
          · simp [ha]
      · cases hf : f.entidadTipo with
        | none => simp
        | some t =>
          cases ht : t == ""
          · have hne : t ≠ "" := by simpa using ht
            simp [ht, p3 t hf hne]
          · simp [ht]
      · cases hf : f.entidadId with
        | none => simp
        | some i => simp [p4 i hf]
      · cases hf : f.exitoso with
        | none => simp
        | some b => simp [p5 b hf]
      · cases hf : f.fechaInicio with
        | none => simp
        | some t0 => simp [p6 t0 hf]
      · cases hf : f.fechaFin with
        | none => simp
        | some t1 => simp [p7 t1 hf]

/-- Filter of the spec scenario: window 2024-01-01 .. 2024-01-31 (ms),
accion login, exitoso false. -/
def filtrosEneroSample : Filtros :=
  { usuario := none
    accion := some "login"
    entidadTipo := none
    entidadId := none
    exitoso := some false
    fechaInicio := some 1704067200000
    fechaFin := some 1706659200000
    limite := none
    skip := none }

/-- A failed login inside the January 2024 window. -/
def auditFailedLoginSample : AuditLogDoc :=
  { auditDocSample with
      accion := some "login"
      resultado := { exitoso := some false, mensaje := some "credenciales",
                     codigoError := none }
      timestamp := 1704928400000 }

/-- A successful login inside the window. -/
def auditOkLoginSample : AuditLogDoc :=
  { auditDocSample with accion := some "login", timestamp := 1705000000000 }

/-- A failed login outside the window. -/
def auditLateLoginSample : AuditLogDoc :=
  { auditFailedLoginSample with timestamp := 1709000000000 }

/-- A small audit store containing the three records above. -/
def auditStoreSample : List AuditLogDoc :=
  [auditFailedLoginSample, auditOkLoginSample, auditLateLoginSample]

/-- C7 witness: in the concrete January-2024 scenario the failed login
record is returned by buscar, belongs to the store and matches the
assembled query. -/
theorem buscar_query_engine_witness :
    auditFailedLoginSample ∈ auditStoreSample
    ∧ matchesQuery (buildQuery filtrosEneroSample) auditFailedLoginSample = true :=
  (buscar_query_engine filtrosEneroSample auditStoreSample).1
    auditFailedLoginSample (by decide)

/-- The filter object with no filter given: its assembled query matches
every record. -/
def emptyFiltros : Filtros :=
  { usuario := none
    accion := none
    entidadTipo := none
    entidadId := none
    exitoso := none
    fechaInicio := none
    fechaFin := none
    limite := none
    skip := none }

/-- At capacity, inserting into the capped store drops exactly the oldest
record. -/
lemma cappedInsert_at_capacity (store : List AuditLogDoc) (d : AuditLogDoc)
    (h : store.length = cappedMax) :
    cappedInsert store d = store.drop 1 ++ [d] := by
  simp only [cappedInsert]
  have hlt : cappedMax < (store ++ [d]).length := by simp [h]
  rw [if_pos hlt]
  have h1 : (store ++ [d]).length - cappedMax = 1 := by simp [h]
  rw [h1, List.drop_append_eq_append_drop]
  simp [h, cappedMax]

/-- C8: the audit store is bounded by the configured ceiling of the capped
collection — an append at the ceiling evicts exactly the oldest record
while keeping the new one; the count never exceeds the ceiling; and the
newly appended record, being the newest, is the first result of a
subsequent unfiltered query. -/
theorem capped_store_ring_buffer :
    (∀ (store : List AuditLogDoc) (d : AuditLogDoc), store.length = cappedMax →
       cappedInsert store d = store.drop 1 ++ [d]
       ∧ d ∈ cappedInsert store d
       ∧ (cappedInsert store d).length = cappedMax)
    ∧ (∀ (store : List AuditLogDoc) (d : AuditLogDoc), store.length ≤ cappedMax →
       (cappedInsert store d).length ≤ cappedMax)
    ∧ (∀ (store : List AuditLogDoc) (d : AuditLogDoc), store.length = cappedMax →
       (∀ x ∈ store, x.timestamp < d.timestamp) →
       (buscar emptyFiltros (cappedInsert store d)).head? = some d) := by
  refine ⟨?_, ?_, ?_⟩
  · intro store d h
    have heq := cappedInsert_at_capacity store d h
    refine ⟨heq, ?_, ?_⟩
    · rw [heq]
      simp
    · rw [heq]
      simp [h, cappedMax]
  · intro store d h
    simp only [cappedInsert]
    by_cases hc : cappedMax < (store ++ [d]).length
    · rw [if_pos hc]
      simp
      omega
    · rw [if_neg hc]
      simp at hc ⊢
      omega
  · intro store d h hmax
    rw [cappedInsert_at_capacity store d h]
    have hfilter : (store.drop 1 ++ [d]).filter
        (fun x => matchesQuery (buildQuery emptyFiltros) x) = store.drop 1 ++ [d] :=
      List.filter_eq_self.mpr (fun a _ => rfl)
    unfold buscar
    rw [hfilter]
    have hskip : buscarSkip emptyFiltros = 0 := rfl
    have hlim : buscarLimite emptyFiltros = 100 := rfl
    have hhead : ∀ l : List AuditLogDoc, (l.take 100).head? = l.head? := by
      intro l
      cases l <;> simp
    rw [hskip, hlim]
    simp only [List.drop_zero, hhead]
    apply head_sortDesc_of_strict_max
    · simp
    · intro x hx hne
      rcases List.mem_append.mp hx with hx1 | hx2
      · exact hmax x ((List.drop_sublist _ _).subset hx1)
      · simp at hx2
        exact absurd hx2 hne

/-- A store sitting exactly at the configured ceiling. -/
def bigStoreSample : List AuditLogDoc := List.replicate 10000 auditDocSample

/-- A record newer than everything in the full store. -/
def auditNewSample : AuditLogDoc := { auditDocSample with timestamp := 99 }

/-- C8 witness: appending to the concrete full store evicts its oldest
record, keeps the count at the ceiling, and the new record heads a
subsequent unfiltered query. -/
theorem capped_store_ring_buffer_witness :
    cappedInsert bigStoreSample auditNewSample
      = bigStoreSample.drop 1 ++ [auditNewSample]
    ∧ (cappedInsert bigStoreSample auditNewSample).length = cappedMax
    ∧ (buscar emptyFiltros (cappedInsert bigStoreSample auditNewSample)).head?
      = some auditNewSample := by
  have h : bigStoreSample.length = cappedMax := by
    simp only [bigStoreSample, List.length_replicate, cappedMax]
  have hmax : ∀ x ∈ bigStoreSample, x.timestamp < auditNewSample.timestamp := by
    intro x hx
    rw [List.eq_of_mem_replicate hx]
    decide
  exact ⟨(capped_store_ring_buffer.1 bigStoreSample auditNewSample h).1,
         (capped_store_ring_buffer.1 bigStoreSample auditNewSample h).2.2,
         capped_store_ring_buffer.2.2 bigStoreSample auditNewSample h hmax⟩

end ClinicalCore
